import Mathlib

/-!
# Verification of the Doc-scanner ingestion pipeline

Shallow embedding of `services.py` (PDF text extraction, response
normalisation, extraction orchestration) and `routes.py` (per-file status
state machine, single-file analyze, bulk analyze-all sweep) of the
Tax-Dash-Demo repository, together with theorems settling the frozen
claims about the specification.

External collaborators (the PyMuPDF document parser, the optional OCR
engine, the Gemini model endpoint, and the JSON codec) are modelled as
explicit parameters, exactly at the boundary where the source calls them:
the source consumes "bytes in, per-page text out" from the parser and
"prompt in, raw text reply out" from the model.
-/

namespace DocScan

/-- Python whitespace as used by `str.strip()` and the regex class `\s`
(ASCII range): space, tab, newline, carriage return, vertical tab, form
feed. -/
def isPySpace (c : Char) : Bool :=
  c = ' ' || c = '\t' || c = '\n' || c = '\r' || c = Char.ofNat 11 || c = Char.ofNat 12

/-- Python `str.strip()` on the character list of a string: drop the
leading and the trailing run of whitespace. -/
def pyStrip (l : List Char) : List Char :=
  (l.dropWhile isPySpace).rdropWhile isPySpace

/-- Python `str.strip()` at the string level. -/
def pyStripS (s : String) : String :=
  ⟨pyStrip s.data⟩

/-- The bare markdown fence marker, three backticks. -/
def fenceMarker : List Char := "```".data

/-- The language-tagged opening fence marker of a JSON code block. -/
def jsonFenceMarker : List Char := "```json".data

/-- Model of `re.sub(r'^<marker>\s*', '', l)` for a literal `marker`: if `l` starts
with the marker, remove it together with the whitespace run following it
(the greedy `\s*`); otherwise leave `l` unchanged.  Without `re.MULTILINE`
the `^`-anchored pattern matches at most once, at the start. -/
def stripLeadFence (marker : List Char) (l : List Char) : List Char :=
  if marker.isPrefixOf l then (l.drop marker.length).dropWhile isPySpace else l

/-- Model of `re.sub(r'\s*```$', '', l)`: if `l` ends with the three-backtick
marker, remove it together with the maximal whitespace run immediately
preceding it (the leftmost match of the `$`-anchored pattern); otherwise
leave `l` unchanged. -/
def stripTrailFence (l : List Char) : List Char :=
  if fenceMarker.isPrefixOf l.reverse then
    ((l.reverse.drop 3).dropWhile isPySpace).reverse
  else l

/-- Function `clean_json_response` from `services.py`, on character lists: the
three `re.sub` steps, each applied to the `str.strip()` of the previous
intermediate value, followed by a final `str.strip()`. -/
def cleanL (s : List Char) : List Char :=
  let t1 := stripLeadFence jsonFenceMarker (pyStrip s)
  let t2 := stripLeadFence fenceMarker (pyStrip t1)
  let t3 := stripTrailFence (pyStrip t2)
  pyStrip t3

/-- Function `clean_json_response` from `services.py`: extract the JSON payload
from a model reply by removing markdown code-fence wrapping. -/
def clean_json_response (text : String) : String :=
  ⟨cleanL text.data⟩

/-! ## `services.py`: PDF text extraction and orchestration

The PyMuPDF document is modelled at the exact boundary the source reads
it: either `fitz.open` (or the page iteration) throws — an exception
message — or it yields the list of per-page embedded texts, in document
order.  The OCR engine is a per-page-index collaborator that either
returns recognised text or throws (non-fatally). -/

/-- The message of the `RuntimeError` raised when too little text was
extracted (`services.py` line 60). -/
def noTextMsg : String :=
  "No text extracted from PDF. PDF might be empty, corrupted, or require OCR."

/-- The page loop of `extract_text_from_pdf`: for each page in order,
take its embedded text; when OCR is requested, available, and the
stripped embedded text is shorter than 50 characters, use the OCR result
instead, falling back to the embedded text if the OCR engine throws;
append a newline after every page. -/
def buildText (use_ocr OCR_AVAILABLE : Bool) (ocr : Nat → Except String String) :
    List String → Nat → String
  | [], _ => ""
  | p :: rest, page_num =>
      let page_text :=
        if use_ocr && OCR_AVAILABLE && (pyStripS p).length < 50 then
          match ocr page_num with
          | .ok t => t
          | .error _ => p
        else p
      page_text ++ "\n" ++ buildText use_ocr OCR_AVAILABLE ocr rest (page_num + 1)

/-- Function `extract_text_from_pdf` from `services.py`.  `doc` is the outcome of
opening/iterating the PDF: `.error e` when parsing throws (the message of
the thrown exception), `.ok pages` the per-page texts.  The internally
raised `RuntimeError` for empty/sparse text is caught by the function's
own `except` clause and re-wrapped, so every failure message carries the
`"PDF text extraction failed: "` prefix plus the underlying message. -/
def extract_text_from_pdf (doc : Except String (List String))
    (use_ocr OCR_AVAILABLE : Bool) (ocr : Nat → Except String String) :
    Except String String :=
  match doc with
  | .error e => .error ("PDF text extraction failed: " ++ e)
  | .ok pages =>
      let text := buildText use_ocr OCR_AVAILABLE ocr pages 0
      if text = "" || (pyStripS text).length < 10 then
        .error ("PDF text extraction failed: " ++ noTextMsg)
      else .ok (pyStripS text)

/-- A Python exception at the model-call boundary: its class name
(`type(e).__name__`) and its message (`str(e)`). -/
structure PyExn where
  name : String
  msg : String
deriving DecidableEq

/-- The fixed five-field prompt built by `extract_from_pdf` around the
extracted document text. -/
def buildPrompt (text : String) : String :=
  "Extract information from this document and return ONLY a JSON object (no markdown, no explanation).\n\nRequired fields:\n- invoice_number: string (or null if not found)\n- date: string in format \"DD MMM YYYY\" (or null)\n- vendor: string (or null)\n- total_amount: string (or null)\n- currency: string (3-letter code like USD, EUR, or null)\n\nDocument text:\n"
    ++ text ++ "\n\nReturn ONLY the JSON object, nothing else:"

/-- The dictionary returned by `extract_from_pdf`, one constructor per
`return` site: success, JSON-decode failure, PDF-processing failure, and
the generic unexpected failure.  The `error` tag of each failure shape is
kept as a field so that theorems can state its literal value. -/
inductive ExtractionResult (Json : Type) where
  | success (data : Json) (raw_text_preview : String)
  | parseFailure (error : String) (gemini_response : String)
      (parse_error : String) (raw_text_preview : String)
  | pdfFailure (error : String) (details : String)
  | unexpectedFailure (error : String) (details : String) (exnType : String)
deriving DecidableEq

/-- Accessor `extracted.get("success", False)`: only the success dictionary
carries `success: True`. -/
def ExtractionResult.getSuccess {Json : Type} : ExtractionResult Json → Bool
  | .success _ _ => true
  | _ => false

/-- Accessor `extracted.get("data", ...)` with the empty-mapping default: the success dictionary's mapping, or the
empty mapping default. -/
def ExtractionResult.getData {Json : Type} (emptyJ : Json) : ExtractionResult Json → Json
  | .success d _ => d
  | _ => emptyJ

/-- Accessor `extracted.get("error", "Unknown error")`: the failure tag, or the
default on a dictionary without an `error` key. -/
def ExtractionResult.getError {Json : Type} : ExtractionResult Json → String
  | .success _ _ => "Unknown error"
  | .parseFailure e _ _ _ => e
  | .pdfFailure e _ => e
  | .unexpectedFailure e _ _ => e

/-- Function `extract_from_pdf` from `services.py`, with the collaborators at the
source's call boundaries as parameters:
* `parse`: `json.loads`, returning the decoded mapping or the
  `JSONDecodeError` message;
* `gemini`: `client_genai.models.generate_content(...).text`, returning
  the model's raw text reply for a prompt, or throwing;
* `doc`, `use_ocr`, `OCR_AVAILABLE`, `ocr`: passed through to
  `extract_text_from_pdf`.

Returns the result dictionary paired with a flag recording whether the
model collaborator was invoked.  A `RuntimeError` is caught by the first
`except` clause (tag `"PDF processing failed"`), any other exception by
the last (tag `"Unexpected error"`). -/
def extract_from_pdf {Json : Type} (parse : String → Except String Json)
    (gemini : String → Except PyExn String)
    (doc : Except String (List String)) (use_ocr OCR_AVAILABLE : Bool)
    (ocr : Nat → Except String String) : ExtractionResult Json × Bool :=
  match extract_text_from_pdf doc use_ocr OCR_AVAILABLE ocr with
  | .error e => (.pdfFailure "PDF processing failed" e, false)
  | .ok text =>
      match gemini (buildPrompt text) with
      | .error e =>
          if e.name = "RuntimeError" then (.pdfFailure "PDF processing failed" e.msg, true)
          else (.unexpectedFailure "Unexpected error" e.msg e.name, true)
      | .ok reply =>
          let cleaned_text := clean_json_response reply
          match parse cleaned_text with
          | .ok extracted => (.success extracted (text.take 200), true)
          | .error pe =>
              (.parseFailure "Failed to parse JSON from Gemini" cleaned_text pe
                (text.take 200), true)

/-! ## `routes.py`: the per-file state machine and the two analyze routes

The database is a list of `UploadedFile` rows.  `SELECT ... WHERE id =
fid ... .first()` is `List.find?`; `UPDATE ... WHERE id = fid` maps the
given column assignment over every row with that id.  The call
`extract_from_pdf(file.file_content)` sits inside a `try`, so its outcome
at this boundary is either the returned dictionary or an escaping
exception; it is modelled by `CallOutcome`. -/

/-- The four-state per-file lifecycle. -/
inductive FileStatus where
  | pending
  | analyzing
  | completed
  | failed
deriving DecidableEq

/-- An `UploadedFile` row, with the columns the analyze routes read or
write.  `file_content` models the stored bytes; Python's
`if not result.file_content` treats empty content as absent. -/
structure FileRec where
  id : Nat
  filename : String
  file_content : String
  status : FileStatus
  extracted_data : Option String
  error_message : Option String
deriving DecidableEq

/-- Query `SELECT ... WHERE id == fid ... .first()`. -/
def lookupFile (db : List FileRec) (fid : Nat) : Option FileRec :=
  db.find? (fun f => f.id == fid)

/-- Statement `UPDATE uploaded_file SET ... WHERE id == fid`: apply the column
assignment `g` to every row whose id matches. -/
def updateWhere (db : List FileRec) (fid : Nat) (g : FileRec → FileRec) : List FileRec :=
  db.map (fun f => if f.id == fid then g f else f)

/-- Assignment `.values(status="analyzing")`: only the status column is written. -/
def setAnalyzing (f : FileRec) : FileRec :=
  { f with status := .analyzing }

/-- Assignment `.values(status="completed", extracted_data=...)`: status and
`extracted_data` are written; `error_message` is left untouched. -/
def setCompleted (d : String) (f : FileRec) : FileRec :=
  { f with status := .completed, extracted_data := some d }

/-- Assignment `.values(status="failed", error_message=...)`: status and
`error_message` are written; `extracted_data` is left untouched. -/
def setFailed (m : String) (f : FileRec) : FileRec :=
  { f with status := .failed, error_message := some m }

/-- An `HTTPException` raised by a route. -/
structure HttpError where
  status_code : Nat
  detail : String
deriving DecidableEq

/-- The outcome of one `extract_from_pdf(...)` call as observed by the
route's `try` block: the returned dictionary, or an exception escaping
the call (whose `str(e)` is recorded). -/
inductive CallOutcome (Json : Type) where
  | ret (r : ExtractionResult Json)
  | exn (msg : String)
deriving DecidableEq

/-- The terminal column assignment an analyze call writes for a given
pipeline outcome: `failed` with the exception text for an escaping
exception, else `completed` with the serialised mapping or `failed` with
the failure tag according to the dictionary's `success` flag.  (Both
analyze routes write exactly this after the `analyzing` write.) -/
def outcomeUpd {Json : Type} (dumps : Json → String) (emptyJ : Json) :
    CallOutcome Json → FileRec → FileRec
  | .exn msg => setFailed msg
  | .ret r =>
      if r.getSuccess then setCompleted (dumps (r.getData emptyJ))
      else setFailed r.getError

/-- The per-file status string recorded in the bulk sweep's `results`
list for a given pipeline outcome. -/
def outcomeStatusStr {Json : Type} : CallOutcome Json → String
  | .exn _ => "failed"
  | .ret r => if r.getSuccess then "completed" else "failed"

/-- Query `SELECT ... WHERE status == "pending" ... .fetchall()`: the
snapshot of pending rows the bulk sweep iterates over. -/
def pendingOf (db : List FileRec) : List FileRec :=
  db.filter (fun f => f.status == .pending)

/-- A placeholder row used as the default of positional `getD` lookups in
theorem statements. -/
def noRec : FileRec := ⟨0, "", "", .pending, none, none⟩

/-- The JSON body returned by the single-file analyze route. -/
structure AnalyzeResponse (Json : Type) where
  id : Nat
  status : String
  extracted : ExtractionResult Json
  message : String
deriving DecidableEq

/-- Route `analyze_file` from `routes.py` (the single-file analyze endpoint).
`dumps` is `json.dumps`, `emptyJ` the empty mapping `{\x7d`, `outcome`
the result of this call's `extract_from_pdf(pdf_bytes)`.  Returns the
database after the route finishes together with the route's response
(`.error` for a raised `HTTPException`).

Control flow of the source: look up the row (404 if absent, 400 if its
content is empty — both before any write); write `analyzing`; run the
pipeline; on a returned dictionary write `completed`+`extracted_data` or
`failed`+`error_message` according to `success`; on an escaping exception
the outer handler writes `failed`+`error_message` and re-raises a 500. -/
def analyze_file {Json : Type} (dumps : Json → String) (emptyJ : Json)
    (outcome : CallOutcome Json) (db : List FileRec) (file_id : Nat) :
    List FileRec × Except HttpError (AnalyzeResponse Json) :=
  match lookupFile db file_id with
  | none => (db, .error ⟨404, "File not found"⟩)
  | some result =>
      if result.file_content = "" then
        (db, .error ⟨400, "File content not found"⟩)
      else
        let db1 := updateWhere db file_id setAnalyzing
        match outcome with
        | .exn msg =>
            (updateWhere db1 file_id (setFailed msg), .error ⟨500, msg⟩)
        | .ret extracted =>
            let db2 :=
              if extracted.getSuccess then
                updateWhere db1 file_id (setCompleted (dumps (extracted.getData emptyJ)))
              else
                updateWhere db1 file_id (setFailed extracted.getError)
            (db2,
              .ok ⟨file_id,
                if extracted.getSuccess then "completed" else "failed",
                extracted,
                if extracted.getSuccess then "Analysis completed successfully"
                else "Analysis failed"⟩)

/-- One entry of the bulk sweep's per-file `results` list. -/
structure BulkItem where
  id : Nat
  filename : String
  status : String
  error : Option String
deriving DecidableEq

/-- A placeholder result item used as the default of positional `getD`
lookups in theorem statements. -/
def noItem : BulkItem := ⟨0, "", "", none⟩

/-- The JSON body returned by the bulk analyze route.  (On the
no-pending-files early return the source's body has no `total_processed`
or `results` keys; they are rendered here as `0` and `[]`.) -/
structure BulkResponse where
  message : String
  analyzed_count : Nat
  total_processed : Nat
  results : List BulkItem
deriving DecidableEq

/-- The body of one iteration of the bulk sweep's `for file in
pending_files` loop: write `analyzing`, run the pipeline, record the
per-file transition and result item.  The third component is this
iteration's increment of `analyzed_count` (`1` exactly on the success
branch).  The `except` arm mirrors the loop's per-file handler: mark the
file failed and append a `failed` item carrying the exception text. -/
def processOne {Json : Type} (dumps : Json → String) (emptyJ : Json)
    (db : List FileRec) (file : FileRec) (oc : CallOutcome Json) :
    List FileRec × BulkItem × Nat :=
  let db1 := updateWhere db file.id setAnalyzing
  match oc with
  | .exn msg =>
      (updateWhere db1 file.id (setFailed msg),
        ⟨file.id, file.filename, "failed", some msg⟩, 0)
  | .ret extracted =>
      if extracted.getSuccess then
        (updateWhere db1 file.id (setCompleted (dumps (extracted.getData emptyJ))),
          ⟨file.id, file.filename, "completed", none⟩, 1)
      else
        (updateWhere db1 file.id (setFailed extracted.getError),
          ⟨file.id, file.filename, "failed", none⟩, 0)

/-- The bulk sweep loop over the snapshot of pending rows, threading the
database through and accumulating the `results` list and
`analyzed_count`.  `ocs i` is the outcome of the `extract_from_pdf` call
of the `i`-th processed file. -/
def sweep {Json : Type} (dumps : Json → String) (emptyJ : Json)
    (ocs : Nat → CallOutcome Json) :
    List FileRec → List FileRec → Nat → List FileRec × List BulkItem × Nat
  | db, [], _ => (db, [], 0)
  | db, file :: rest, i =>
      let step := processOne dumps emptyJ db file (ocs i)
      let tail := sweep dumps emptyJ ocs step.1 rest (i + 1)
      (tail.1, step.2.1 :: tail.2.1, step.2.2 + tail.2.2)

/-- Route `analyze_all_pending` from `routes.py` (the bulk analyze endpoint): select
every row currently `pending`, return early when there are none,
otherwise process each selected row sequentially through `processOne`. -/
def analyze_all_pending {Json : Type} (dumps : Json → String) (emptyJ : Json)
    (ocs : Nat → CallOutcome Json) (db : List FileRec) :
    List FileRec × BulkResponse :=
  let pending_files := pendingOf db
  if pending_files.isEmpty then
    (db, ⟨"No pending files to analyze", 0, 0, []⟩)
  else
    let swept := sweep dumps emptyJ ocs db pending_files 0
    (swept.1,
      ⟨"Analysis completed for " ++ toString swept.2.2 ++ " files",
        swept.2.2, pending_files.length, swept.2.1⟩)

/-! ## Concrete sample inputs

Closed instantiations of the collaborator parameters and of the stored
database, used by the witness theorems to evaluate the claims at
concrete inputs. -/

/-- Sample `json.dumps` over the trivial mapping type. -/
def wDumps : Unit → String := fun _ => "\x7b\x7d"

/-- Sample `json.loads`: accepts exactly the reply `"null"`. -/
def wParse : String → Except String Unit :=
  fun s => if s = "null" then .ok () else .error "Expecting value: line 1 column 1 (char 0)"

/-- Sample stored database of three pending uploads with distinct ids. -/
def wDb : List FileRec :=
  [⟨1, "a.pdf", "P", .pending, none, none⟩,
   ⟨2, "b.pdf", "Q", .pending, none, none⟩,
   ⟨3, "c.pdf", "R", .pending, none, none⟩]

/-- Sample per-file pipeline outcomes for the bulk sweep: file 0
succeeds, file 1's call throws, file 2 returns a failure dictionary. -/
def wOcs : Nat → CallOutcome Unit :=
  fun i =>
    if i = 0 then .ret (.success () "pv")
    else if i = 1 then .exn "boom"
    else .ret (.pdfFailure "PDF processing failed" "bad")

/-! ## Helper lemmas -/

/-- A row of an updated database that carries the targeted id is the
image under the column assignment of a stored row with that id
(the column assignments of the routes never write the id column). -/
theorem mem_updateWhere_target (db : List FileRec) (fid : Nat) (h : FileRec → FileRec) :
    ∀ g ∈ updateWhere db fid h, g.id = fid → ∃ a ∈ db, a.id = fid ∧ g = h a := by
  intro g hg hgid
  simp only [updateWhere, List.mem_map] at hg
  obtain ⟨a, ha, hfa⟩ := hg
  by_cases hc : a.id = fid
  · exact ⟨a, ha, hc, by simpa [hc] using hfa.symm⟩
  · rw [if_neg (by simpa using hc)] at hfa
    subst hfa
    exact absurd hgid hc

/-- On a found row with non-empty content, the database after the
single-file analyze route is the `analyzing` write followed by the write
of the outcome's terminal transition. -/
theorem analyze_file_db_eq {Json : Type} (dumps : Json → String) (emptyJ : Json)
    (outcome : CallOutcome Json) (db : List FileRec) (fid : Nat) (f : FileRec)
    (hlk : lookupFile db fid = some f) (hc : ¬f.file_content = "") :
    (analyze_file dumps emptyJ outcome db fid).1
      = updateWhere (updateWhere db fid setAnalyzing) fid
          (outcomeUpd dumps emptyJ outcome) := by
  cases outcome with
  | exn msg =>
      simp only [analyze_file, hlk, outcomeUpd]
      rw [if_neg hc]
  | ret r =>
      simp only [analyze_file, hlk, outcomeUpd]
      rw [if_neg hc]
      by_cases hs : r.getSuccess <;> simp [hs]

/-! ## Claims about the orchestrator (`extract_from_pdf`) -/

/-- Claim C4: for every PDF input from which the extractor yields valid
text, when the model collaborator replies with text whose normalised form
decodes to a valid JSON mapping, the orchestrator returns a success
result carrying that decoded mapping and the first 200 characters of the
extracted text as preview — and the model was indeed consulted. -/
theorem extract_from_pdf_success_spec {Json : Type} (parse : String → Except String Json)
    (gemini : String → Except PyExn String) (doc : Except String (List String))
    (use_ocr OCR_AVAILABLE : Bool) (ocr : Nat → Except String String)
    (text reply : String) (m : Json)
    (hext : extract_text_from_pdf doc use_ocr OCR_AVAILABLE ocr = .ok text)
    (hgem : gemini (buildPrompt text) = .ok reply)
    (hparse : parse (clean_json_response reply) = .ok m) :
    extract_from_pdf parse gemini doc use_ocr OCR_AVAILABLE ocr
      = (.success m (text.take 200), true) := by
  simp only [extract_from_pdf, hext, hgem, hparse]

/-- Claim C5: for every PDF input from which the extractor yields valid
text, when the model collaborator replies with text whose normalised form
is not valid JSON, the orchestrator returns a failure tagged
`"Failed to parse JSON from Gemini"` carrying the cleaned candidate text,
the parse error detail, and the extracted-text preview. -/
theorem extract_from_pdf_parse_failure_spec {Json : Type} (parse : String → Except String Json)
    (gemini : String → Except PyExn String) (doc : Except String (List String))
    (use_ocr OCR_AVAILABLE : Bool) (ocr : Nat → Except String String)
    (text reply pe : String)
    (hext : extract_text_from_pdf doc use_ocr OCR_AVAILABLE ocr = .ok text)
    (hgem : gemini (buildPrompt text) = .ok reply)
    (hparse : parse (clean_json_response reply) = .error pe) :
    extract_from_pdf parse gemini doc use_ocr OCR_AVAILABLE ocr
      = (.parseFailure "Failed to parse JSON from Gemini" (clean_json_response reply) pe
          (text.take 200), true) := by
  simp only [extract_from_pdf, hext, hgem, hparse]

/-- Claim C6: whenever the PDF text extractor fails, the orchestrator
returns a failure tagged `"PDF processing failed"` carrying the
underlying message, and this holds uniformly in the model collaborator,
which is never invoked (the instrumentation flag is `false`). -/
theorem extract_from_pdf_pdf_failure_spec {Json : Type} (parse : String → Except String Json)
    (doc : Except String (List String)) (use_ocr OCR_AVAILABLE : Bool)
    (ocr : Nat → Except String String) (e : String)
    (hext : extract_text_from_pdf doc use_ocr OCR_AVAILABLE ocr = .error e) :
    ∀ gemini : String → Except PyExn String,
      extract_from_pdf parse gemini doc use_ocr OCR_AVAILABLE ocr
        = (.pdfFailure "PDF processing failed" e, false) := by
  intro gemini
  simp only [extract_from_pdf, hext]

/-- Claim C7: with OCR disabled, a PDF whose combined extracted text is,
after trimming, empty or shorter than 10 characters makes `extract_text`
fail with the processing error (which carries the underlying
no-text message); and a document-parsing failure surfaces as the same
error kind with the underlying message included. -/
theorem extract_text_from_pdf_error_spec (pages : List String) (OCR_AVAILABLE : Bool)
    (ocr : Nat → Except String String)
    (hshort : (pyStripS (buildText false OCR_AVAILABLE ocr pages 0)).length < 10) :
    extract_text_from_pdf (.ok pages) false OCR_AVAILABLE ocr
        = .error ("PDF text extraction failed: " ++ noTextMsg)
    ∧ ∀ (e : String) (use_ocr OCR_AVAILABLE2 : Bool) (ocr2 : Nat → Except String String),
        extract_text_from_pdf (.error e) use_ocr OCR_AVAILABLE2 ocr2
          = .error ("PDF text extraction failed: " ++ e) := by
  refine ⟨?_, fun e _ _ _ => rfl⟩
  simp [extract_text_from_pdf, hshort]

/-! ## Claims about the analyze routes -/

/-- Claim C10: a single-file analyze request for an id with no stored
record fails with the 404 not-found error and leaves the database — every
stored entity's status and fields — unchanged: the existence check
precedes the transition to `analyzing`. -/
theorem analyze_file_not_found_spec {Json : Type} (dumps : Json → String) (emptyJ : Json)
    (outcome : CallOutcome Json) (db : List FileRec) (file_id : Nat)
    (h : lookupFile db file_id = none) :
    analyze_file dumps emptyJ outcome db file_id = (db, .error ⟨404, "File not found"⟩) := by
  simp only [analyze_file, h]

/-- Claim C9: for an analyze invocation on a stored file (with content),
an exception escaping the orchestrator is caught one layer up and
recorded on the entity as status `failed` with the exception's message;
and for every outcome — returned dictionary or escaping exception — the
entity never remains in status `analyzing` once the analyze call has
finished. -/
theorem analyze_file_terminal_spec {Json : Type} (dumps : Json → String) (emptyJ : Json)
    (db : List FileRec) (fid : Nat) (f : FileRec)
    (hlk : lookupFile db fid = some f) (hc : ¬f.file_content = "") :
    (∀ outcome : CallOutcome Json, ∀ g ∈ (analyze_file dumps emptyJ outcome db fid).1,
        g.id = fid → g.status ≠ .analyzing)
    ∧ ∀ msg : String, ∀ g ∈ (analyze_file dumps emptyJ (.exn msg) db fid).1,
        g.id = fid → g.status = .failed ∧ g.error_message = some msg := by
  constructor
  · intro outcome g hg hgid
    rw [analyze_file_db_eq dumps emptyJ outcome db fid f hlk hc] at hg
    obtain ⟨a, -, -, rfl⟩ := mem_updateWhere_target _ _ _ g hg hgid
    cases outcome with
    | exn msg => simp [outcomeUpd, setFailed]
    | ret r =>
        by_cases hs : r.getSuccess <;>
          simp [hs, outcomeUpd, setCompleted, setFailed]
  · intro msg g hg hgid
    rw [analyze_file_db_eq dumps emptyJ (.exn msg) db fid f hlk hc] at hg
    obtain ⟨a, -, -, rfl⟩ := mem_updateWhere_target _ _ _ g hg hgid
    exact ⟨rfl, rfl⟩

/-- Claim C1 (counterexample): the mutual-exclusivity invariant fails
under re-analysis.  A freshly uploaded file is analyzed once with a
failing pipeline outcome (writing `error_message`) and re-analyzed with a
succeeding one (writing `extracted_data` without clearing the error
field): the resulting entity has both `extracted_data` and
`error_message` set. -/
theorem mutual_exclusivity_fails :
    ∃ g ∈ (analyze_file (fun _ : Unit => "\x7b\x7d") () (.ret (.success () "pv"))
            ((analyze_file (fun _ : Unit => "\x7b\x7d") ()
                (.ret (.pdfFailure "PDF processing failed" "boom"))
                [⟨1, "a.pdf", "PDFBYTES", .pending, none, none⟩] 1).1) 1).1,
      g.extracted_data.isSome = true ∧ g.error_message.isSome = true := by
  decide

/-- Claim C1 (amended): the `completed` transition writes
`extracted_data` and the `failed` transition writes `error_message`, and
a single analyze operation starting from an entity with both fields
absent (as at upload) leaves at most one of them set.  Neither transition
clears the opposite field, however, so re-analysis of a previously failed
or completed file can leave both set simultaneously. -/
theorem analyze_file_fresh_exclusive {Json : Type} (dumps : Json → String) (emptyJ : Json)
    (outcome : CallOutcome Json) (db : List FileRec) (fid : Nat)
    (hfresh : ∀ g ∈ db, g.id = fid → g.extracted_data = none ∧ g.error_message = none) :
    ∀ g ∈ (analyze_file dumps emptyJ outcome db fid).1, g.id = fid →
      ¬(g.extracted_data.isSome = true ∧ g.error_message.isSome = true) := by
  intro g hg hgid
  match hlk : lookupFile db fid with
  | none =>
      have hdb : (analyze_file dumps emptyJ outcome db fid).1 = db := by
        simp only [analyze_file, hlk]
      rw [hdb] at hg
      obtain ⟨h1, h2⟩ := hfresh g hg hgid
      simp [h1, h2]
  | some f =>
      by_cases hcont : f.file_content = ""
      · have : (analyze_file dumps emptyJ outcome db fid).1 = db := by
          simp only [analyze_file, hlk]
          rw [if_pos hcont]
        rw [this] at hg
        obtain ⟨h1, h2⟩ := hfresh g hg hgid
        simp [h1, h2]
      · rw [analyze_file_db_eq dumps emptyJ outcome db fid f hlk hcont] at hg
        obtain ⟨a, ha, haid, rfl⟩ := mem_updateWhere_target _ _ _ g hg hgid
        have haid2 : a.id = fid := haid
        obtain ⟨b, hb, hbid, rfl⟩ := mem_updateWhere_target _ _ _ a ha haid2
        obtain ⟨h1, h2⟩ := hfresh b hb hbid
        cases outcome with
        | exn msg => simp [outcomeUpd, setFailed, setAnalyzing, h1]
        | ret r =>
            by_cases hs : r.getSuccess <;>
              simp [hs, outcomeUpd, setCompleted, setFailed, setAnalyzing, h1, h2]

/-- Unfolding of one bulk-loop iteration's database effect: the
`analyzing` write followed by the outcome's terminal write, both keyed on
the processed file's id. -/
theorem processOne_db_eq {Json : Type} (dumps : Json → String) (emptyJ : Json)
    (db : List FileRec) (file : FileRec) (oc : CallOutcome Json) :
    (processOne dumps emptyJ db file oc).1
      = updateWhere (updateWhere db file.id setAnalyzing) file.id
          (outcomeUpd dumps emptyJ oc) := by
  cases oc with
  | exn msg => rfl
  | ret r => by_cases hs : r.getSuccess <;> simp [processOne, outcomeUpd, hs]

/-- One bulk-loop iteration's result item carries the processed file's
id, the status determined by the outcome, and its `analyzed_count`
increment is `1` exactly when that status is `"completed"`. -/
theorem processOne_item_spec {Json : Type} (dumps : Json → String) (emptyJ : Json)
    (db : List FileRec) (file : FileRec) (oc : CallOutcome Json) :
    (processOne dumps emptyJ db file oc).2.1.id = file.id
    ∧ (processOne dumps emptyJ db file oc).2.1.status = outcomeStatusStr oc
    ∧ (processOne dumps emptyJ db file oc).2.2
        = (if (processOne dumps emptyJ db file oc).2.1.status == "completed"
            then 1 else 0) := by
  cases oc with
  | exn msg =>
      have hfc : (("failed" : String) == "completed") = false := by decide
      exact ⟨rfl, rfl, by simp [processOne, hfc]⟩
  | ret r =>
      by_cases hs : r.getSuccess <;>
        simp [processOne, outcomeStatusStr, hs]

/-- Rows whose id is not targeted by an update are untouched. -/
theorem mem_updateWhere_other (db : List FileRec) (fid : Nat) (h : FileRec → FileRec)
    (hid : ∀ x, (h x).id = x.id) :
    ∀ g ∈ updateWhere db fid h, g.id ≠ fid → g ∈ db := by
  intro g hg hgid
  simp only [updateWhere, List.mem_map] at hg
  obtain ⟨a, ha, hfa⟩ := hg
  by_cases hc : a.id = fid
  · rw [if_pos (by simpa using hc)] at hfa
    exact absurd (by rw [← hfa, hid a, hc]) hgid
  · rw [if_neg (by simpa using hc)] at hfa
    subst hfa
    exact ha

/-- The terminal transitions never write the id column. -/
theorem outcomeUpd_id {Json : Type} (dumps : Json → String) (emptyJ : Json)
    (oc : CallOutcome Json) (x : FileRec) :
    (outcomeUpd dumps emptyJ oc x).id = x.id := by
  cases oc with
  | exn m => rfl
  | ret r =>
      by_cases hs : r.getSuccess <;>
        simp [outcomeUpd, hs, setCompleted, setFailed]

/-- The bulk sweep returns one result item per selected file. -/
theorem sweep_length {Json : Type} (dumps : Json → String) (emptyJ : Json)
    (ocs : Nat → CallOutcome Json) :
    ∀ (files db : List FileRec) (i : Nat),
      (sweep dumps emptyJ ocs db files i).2.1.length = files.length := by
  intro files
  induction files with
  | nil => intro db i; rfl
  | cons f rest ih => intro db i; simp [sweep, ih]

/-- The `j`-th result item of the bulk sweep carries the `j`-th selected
file's id and the status determined by that file's own outcome. -/
theorem sweep_items_spec {Json : Type} (dumps : Json → String) (emptyJ : Json)
    (ocs : Nat → CallOutcome Json) :
    ∀ (files db : List FileRec) (i j : Nat), j < files.length →
      ((sweep dumps emptyJ ocs db files i).2.1.getD j noItem).id
          = (files.getD j noRec).id
      ∧ ((sweep dumps emptyJ ocs db files i).2.1.getD j noItem).status
          = outcomeStatusStr (ocs (i + j)) := by
  intro files
  induction files with
  | nil => intro db i j hj; simp at hj
  | cons f rest ih =>
      intro db i j hj
      cases j with
      | zero =>
          have h := processOne_item_spec dumps emptyJ db f (ocs i)
          simp only [sweep, List.getD_cons_zero, Nat.add_zero, List.getD]
          exact ⟨h.1, h.2.1⟩
      | succ j' =>
          have hrec := ih (processOne dumps emptyJ db f (ocs i)).1 (i + 1) j'
            (by simpa using Nat.lt_of_succ_lt_succ (by simpa using hj))
          simp only [sweep, List.getD_cons_succ, List.getD]
          rw [show i + (j' + 1) = (i + 1) + j' by omega]
          exact hrec

/-- The bulk sweep's `analyzed_count` equals the number of result items
whose status is `"completed"`. -/
theorem sweep_count_spec {Json : Type} (dumps : Json → String) (emptyJ : Json)
    (ocs : Nat → CallOutcome Json) :
    ∀ (files db : List FileRec) (i : Nat),
      (sweep dumps emptyJ ocs db files i).2.2
        = ((sweep dumps emptyJ ocs db files i).2.1.filter
            (fun it => it.status == "completed")).length := by
  intro files
  induction files with
  | nil => intro db i; rfl
  | cons f rest ih =>
      intro db i
      have hitem := processOne_item_spec dumps emptyJ db f (ocs i)
      simp only [sweep, List.filter_cons]
      by_cases hc : ((processOne dumps emptyJ db f (ocs i)).2.1.status == "completed") = true
      · rw [if_pos hc]
        simp only [List.length_cons, hitem.2.2, hc, if_true, ih]
        omega
      · rw [if_neg hc]
        rw [hitem.2.2, if_neg hc, ih]
        omega

/-- Rows whose id belongs to none of the files still to be processed are
untouched by the rest of the sweep. -/
theorem sweep_db_preserve {Json : Type} (dumps : Json → String) (emptyJ : Json)
    (ocs : Nat → CallOutcome Json) :
    ∀ (files db : List FileRec) (i : Nat) (a : Nat),
      (∀ f' ∈ files, f'.id ≠ a) →
      ∀ g ∈ (sweep dumps emptyJ ocs db files i).1, g.id = a → g ∈ db := by
  intro files
  induction files with
  | nil => intro db i a _ g hg _; exact hg
  | cons f rest ih =>
      intro db i a hne g hg hga
      have hg1 : g ∈ (processOne dumps emptyJ db f (ocs i)).1 :=
        ih _ (i + 1) a (fun f' hf' => hne f' (List.mem_cons_of_mem f hf')) g
          (by simpa [sweep] using hg) hga
      rw [processOne_db_eq] at hg1
      have hfa : f.id ≠ a := hne f (List.mem_cons_self f rest)
      have h2 : g ∈ updateWhere db f.id setAnalyzing :=
        mem_updateWhere_other _ _ _ (outcomeUpd_id dumps emptyJ (ocs i)) g hg1
          (by rw [hga]; exact Ne.symm hfa)
      exact mem_updateWhere_other db f.id setAnalyzing (fun _ => rfl) g h2
        (by rw [hga]; exact Ne.symm hfa)

/-- When the selected files have pairwise distinct ids, every final-state
row carrying the `j`-th selected file's id is the image of some row under
the terminal transition of the `j`-th outcome. -/
theorem sweep_db_target {Json : Type} (dumps : Json → String) (emptyJ : Json)
    (ocs : Nat → CallOutcome Json) :
    ∀ (files db : List FileRec) (i j : Nat), j < files.length →
      (files.map FileRec.id).Nodup →
      ∀ g ∈ (sweep dumps emptyJ ocs db files i).1,
        g.id = (files.getD j noRec).id →
        ∃ a, g = outcomeUpd dumps emptyJ (ocs (i + j)) a := by
  intro files
  induction files with
  | nil => intro db i j hj; simp at hj
  | cons f rest ih =>
      intro db i j hj hnd g hg hgid
      simp only [List.map_cons, List.nodup_cons] at hnd
      cases j with
      | zero =>
          have hne : ∀ f' ∈ rest, f'.id ≠ f.id := by
            intro f' hf' heq
            exact hnd.1 (heq ▸ List.mem_map_of_mem FileRec.id hf')
          have hg1 : g ∈ (processOne dumps emptyJ db f (ocs i)).1 :=
            sweep_db_preserve dumps emptyJ ocs rest _ (i + 1) f.id hne g
              (by simpa [sweep] using hg) (by simpa using hgid)
          rw [processOne_db_eq] at hg1
          obtain ⟨a, -, -, rfl⟩ :=
            mem_updateWhere_target _ _ _ g hg1 (by simpa using hgid)
          exact ⟨a, by rw [Nat.add_zero]⟩
      | succ j' =>
          obtain ⟨a, ha⟩ := ih (processOne dumps emptyJ db f (ocs i)).1 (i + 1) j'
            (by simpa using Nat.lt_of_succ_lt_succ (by simpa using hj)) hnd.2 g
            (by simpa [sweep] using hg) (by simpa using hgid)
          exact ⟨a, by rw [show i + (j' + 1) = (i + 1) + j' by omega]; exact ha⟩

/-- Claim C8: on a queue of pending files in which the `K`-th file's
processing throws, the bulk sweep still processes the whole queue: the
returned per-file status list covers all selected files (item `j`
carrying file `j`'s id and the status of file `j`'s own outcome), item
`K` reports `failed`, file `K`'s row ends in status `failed` with the
exception text, and `analyzed_count` equals the number of files that
reached `completed`. -/
theorem analyze_all_pending_spec {Json : Type} (dumps : Json → String) (emptyJ : Json)
    (ocs : Nat → CallOutcome Json) (db : List FileRec) (K : Nat) (msg : String)
    (hnodup : (db.map FileRec.id).Nodup)
    (hK : K < (pendingOf db).length)
    (hexn : ocs K = .exn msg) :
    (analyze_all_pending dumps emptyJ ocs db).2.results.length = (pendingOf db).length
    ∧ (analyze_all_pending dumps emptyJ ocs db).2.total_processed = (pendingOf db).length
    ∧ (∀ j, j < (pendingOf db).length →
        ((analyze_all_pending dumps emptyJ ocs db).2.results.getD j noItem).id
            = ((pendingOf db).getD j noRec).id
        ∧ ((analyze_all_pending dumps emptyJ ocs db).2.results.getD j noItem).status
            = outcomeStatusStr (ocs j))
    ∧ ((analyze_all_pending dumps emptyJ ocs db).2.results.getD K noItem).status = "failed"
    ∧ (∀ g ∈ (analyze_all_pending dumps emptyJ ocs db).1,
        g.id = ((pendingOf db).getD K noRec).id →
          g.status = .failed ∧ g.error_message = some msg)
    ∧ (analyze_all_pending dumps emptyJ ocs db).2.analyzed_count
        = ((analyze_all_pending dumps emptyJ ocs db).2.results.filter
            (fun it => it.status == "completed")).length := by
  have hempty : (pendingOf db).isEmpty = false := by
    cases hp : pendingOf db with
    | nil => rw [hp] at hK; simp at hK
    | cons a l => rfl
  have heq : analyze_all_pending dumps emptyJ ocs db
      = ((sweep dumps emptyJ ocs db (pendingOf db) 0).1,
          ⟨"Analysis completed for "
              ++ toString (sweep dumps emptyJ ocs db (pendingOf db) 0).2.2 ++ " files",
            (sweep dumps emptyJ ocs db (pendingOf db) 0).2.2,
            (pendingOf db).length,
            (sweep dumps emptyJ ocs db (pendingOf db) 0).2.1⟩) := by
    simp only [analyze_all_pending, hempty]
    rfl
  have hpnd : ((pendingOf db).map FileRec.id).Nodup :=
    hnodup.sublist ((List.filter_sublist db).map FileRec.id)
  have hitems : ∀ j, j < (pendingOf db).length →
      ((sweep dumps emptyJ ocs db (pendingOf db) 0).2.1.getD j noItem).id
          = ((pendingOf db).getD j noRec).id
      ∧ ((sweep dumps emptyJ ocs db (pendingOf db) 0).2.1.getD j noItem).status
          = outcomeStatusStr (ocs j) := by
    intro j hj
    have h := sweep_items_spec dumps emptyJ ocs (pendingOf db) db 0 j hj
    rwa [Nat.zero_add] at h
  refine ⟨?_, ?_, ?_, ?_, ?_, ?_⟩
  · rw [heq]
    exact sweep_length dumps emptyJ ocs (pendingOf db) db 0
  · rw [heq]
  · intro j hj
    rw [heq]
    exact hitems j hj
  · rw [heq]
    rw [(hitems K hK).2, hexn]
    rfl
  · intro g hg hgid
    rw [heq] at hg
    obtain ⟨a, rfl⟩ := sweep_db_target dumps emptyJ ocs (pendingOf db) db 0 K hK hpnd g hg hgid
    rw [Nat.zero_add, hexn]
    exact ⟨rfl, rfl⟩
  · rw [heq]
    exact sweep_count_spec dumps emptyJ ocs (pendingOf db) db 0

/-! ## Lemmas about the response normaliser -/

/-- The suffix a `dropWhile` leaves is never longer than the input. -/
theorem length_dropWhile_le2 (p : Char → Bool) (l : List Char) :
    (l.dropWhile p).length ≤ l.length :=
  ((List.dropWhile_suffix p).sublist).length_le

/-- A list that `dropWhile` leaves unchanged has a head the predicate
rejects. -/
theorem head_false_of_dropWhile_self (p : Char → Bool) (c : Char) (m : List Char)
    (h : (c :: m).dropWhile p = c :: m) : p c = false := by
  by_contra hcc
  rw [Bool.not_eq_false] at hcc
  rw [List.dropWhile_cons_of_pos hcc] at h
  have hlen := congrArg List.length h
  have hle := length_dropWhile_le2 p m
  simp only [List.length_cons] at hlen
  omega

/-- A prefix of a list that `dropWhile` leaves unchanged is itself left
unchanged. -/
theorem dropWhile_eq_self_of_prefix (p : Char → Bool) (y z : List Char)
    (hy : y.dropWhile p = y) (hzy : z <+: y) : z.dropWhile p = z := by
  cases z with
  | nil => rfl
  | cons c t =>
      obtain ⟨u, rfl⟩ := hzy
      rw [List.cons_append] at hy
      exact List.dropWhile_cons_of_neg
        (by simp [head_false_of_dropWhile_self p c (t ++ u) hy])

/-- A list whose leading and trailing whitespace runs are both empty is a
fixed point of `pyStrip`. -/
theorem pyStrip_eq_self (l : List Char)
    (hL : l.dropWhile isPySpace = l)
    (hR : l.reverse.dropWhile isPySpace = l.reverse) :
    pyStrip l = l := by
  unfold pyStrip List.rdropWhile
  rw [hL, hR, List.reverse_reverse]

/-- Python's `strip` is idempotent. -/
theorem pyStrip_idem (l : List Char) : pyStrip (pyStrip l) = pyStrip l := by
  unfold pyStrip
  have hy : (l.dropWhile isPySpace).dropWhile isPySpace = l.dropWhile isPySpace :=
    List.dropWhile_idempotent isPySpace l
  have hz : ((l.dropWhile isPySpace).rdropWhile isPySpace).dropWhile isPySpace
      = (l.dropWhile isPySpace).rdropWhile isPySpace :=
    dropWhile_eq_self_of_prefix isPySpace _ _ hy
      (List.rdropWhile_prefix isPySpace (l.dropWhile isPySpace))
  rw [hz, List.rdropWhile_idempotent]

/-- The output of the normaliser is already stripped. -/
theorem pyStrip_cleanL (l : List Char) : pyStrip (cleanL l) = cleanL l := by
  simp only [cleanL]
  exact pyStrip_idem _

/-- The backtick is not whitespace. -/
theorem isPySpace_backtick : isPySpace (Char.ofNat 96) = false := by decide

/-- The bare fence marker written as an explicit cons cell. -/
theorem fence_cons : fenceMarker = Char.ofNat 96 :: "``".data := by decide

/-- The bare fence marker is a palindrome. -/
theorem fence_rev : fenceMarker.reverse = fenceMarker := by decide

/-- The json fence marker written as an explicit cons cell. -/
theorem jsonFence_cons : jsonFenceMarker = Char.ofNat 96 :: "``json".data := by decide

/-- Main path of the fence round-trip: a non-empty trimmed payload for
which the bare-fence substitution does not fire on `payload ++ fence`
passes through the normaliser's five stages and comes back unchanged. -/
theorem clean_fence_main (c : Char) (m : List Char)
    (h1 : (c :: m).dropWhile isPySpace = c :: m)
    (h2 : (c :: m).reverse.dropWhile isPySpace = (c :: m).reverse)
    (hfire : fenceMarker.isPrefixOf ((c :: m) ++ fenceMarker) = false) :
    cleanL (jsonFenceMarker ++ (c :: m) ++ fenceMarker) = c :: m := by
  have hc : isPySpace c = false := head_false_of_dropWhile_self isPySpace c m h1
  have hLw : (jsonFenceMarker ++ (c :: m) ++ fenceMarker).dropWhile isPySpace
      = jsonFenceMarker ++ (c :: m) ++ fenceMarker := by
    rw [jsonFence_cons, List.cons_append, List.cons_append]
    exact List.dropWhile_cons_of_neg (by simp [isPySpace_backtick])
  have hRw : (jsonFenceMarker ++ (c :: m) ++ fenceMarker).reverse.dropWhile isPySpace
      = (jsonFenceMarker ++ (c :: m) ++ fenceMarker).reverse := by
    rw [List.reverse_append, fence_rev, fence_cons, List.cons_append]
    exact List.dropWhile_cons_of_neg (by simp [isPySpace_backtick])
  have e0 : pyStrip (jsonFenceMarker ++ (c :: m) ++ fenceMarker)
      = jsonFenceMarker ++ (c :: m) ++ fenceMarker := pyStrip_eq_self _ hLw hRw
  have hL1 : ((c :: m) ++ fenceMarker).dropWhile isPySpace = (c :: m) ++ fenceMarker := by
    rw [List.cons_append]
    exact List.dropWhile_cons_of_neg (by simp [hc])
  have hR1 : ((c :: m) ++ fenceMarker).reverse.dropWhile isPySpace
      = ((c :: m) ++ fenceMarker).reverse := by
    rw [List.reverse_append, fence_rev, fence_cons, List.cons_append]
    exact List.dropWhile_cons_of_neg (by simp [isPySpace_backtick])
  have e1 : stripLeadFence jsonFenceMarker (jsonFenceMarker ++ (c :: m) ++ fenceMarker)
      = (c :: m) ++ fenceMarker := by
    unfold stripLeadFence
    rw [if_pos (by rw [List.isPrefixOf_iff_prefix, List.append_assoc]
                   exact List.prefix_append _ _)]
    rw [List.append_assoc, List.drop_left]
    exact hL1
  have e2 : pyStrip ((c :: m) ++ fenceMarker) = (c :: m) ++ fenceMarker :=
    pyStrip_eq_self _ hL1 hR1
  have e3 : stripLeadFence fenceMarker ((c :: m) ++ fenceMarker)
      = (c :: m) ++ fenceMarker := by
    unfold stripLeadFence
    rw [if_neg (by rw [hfire]; simp)]
  have e4 : stripTrailFence ((c :: m) ++ fenceMarker) = c :: m := by
    unfold stripTrailFence
    rw [if_pos (by rw [List.reverse_append, fence_rev, List.isPrefixOf_iff_prefix]
                   exact List.prefix_append _ _)]
    rw [List.reverse_append, fence_rev, fence_cons]
    rw [show ∀ x : List Char,
          ((Char.ofNat 96 :: "``".data) ++ x).drop 3 = x from fun x => rfl]
    rw [h2, List.reverse_reverse]
  have e5 : pyStrip (c :: m) = c :: m := pyStrip_eq_self _ h1 h2
  show pyStrip (stripTrailFence (pyStrip (stripLeadFence fenceMarker
    (pyStrip (stripLeadFence jsonFenceMarker
      (pyStrip (jsonFenceMarker ++ (c :: m) ++ fenceMarker))))))) = c :: m
  rw [e0, e1, e2, e3, e2, e4, e5]

/-- Claim C3 (amended, list level): wrapping a payload with no leading or
trailing whitespace and not itself beginning with a fence marker into a
```json fence and normalising returns exactly the payload. -/
theorem clean_json_fence_roundtrip (t : List Char)
    (h1 : t.dropWhile isPySpace = t)
    (h2 : t.reverse.dropWhile isPySpace = t.reverse)
    (h3 : fenceMarker.isPrefixOf t = false) :
    cleanL (jsonFenceMarker ++ t ++ fenceMarker) = t := by
  rcases t with _ | ⟨a, _ | ⟨b, _ | ⟨c, rest⟩⟩⟩
  · decide
  · by_cases ha : a = Char.ofNat 96
    · subst ha; decide
    · refine clean_fence_main a [] h1 h2 ?_
      have : ¬(Char.ofNat 96 == a) = true := by
        simp only [beq_iff_eq]
        exact fun h => ha h.symm
      simp [fence_cons, List.isPrefixOf, this]
  · by_cases hab : a = Char.ofNat 96 ∧ b = Char.ofNat 96
    · obtain ⟨rfl, rfl⟩ := hab
      decide
    · refine clean_fence_main a [b] h1 h2 ?_
      rw [Decidable.not_and_iff_or_not] at hab
      rcases hab with ha | hb
      · have : ¬(Char.ofNat 96 == a) = true := by
          simp only [beq_iff_eq]
          exact fun h => ha h.symm
        simp [fence_cons, List.isPrefixOf, this]
      · have : ¬(Char.ofNat 96 == b) = true := by
          simp only [beq_iff_eq]
          exact fun h => hb h.symm
        simp [fence_cons, List.isPrefixOf, this]
  · refine clean_fence_main a (b :: c :: rest) h1 h2 ?_
    have hstep : fenceMarker.isPrefixOf ((a :: b :: c :: rest) ++ fenceMarker)
        = fenceMarker.isPrefixOf (a :: b :: c :: rest) := by
      simp [fence_cons, List.isPrefixOf]
    rw [hstep]
    exact h3

/-- Unfolding of the character data of a packed string. -/
theorem data_mk (l : List Char) : String.data ⟨l⟩ = l := rfl

/-- The character data of a normalised reply is the list-level
normalisation of the reply's character data. -/
theorem clean_json_response_data (s : String) :
    (clean_json_response s).data = cleanL s.data := by
  unfold clean_json_response
  rw [data_mk]

/-- Normalising a second time changes nothing provided the first pass's
output neither starts nor ends with a bare fence marker (list level). -/
theorem cleanL_idem_of_no_fence (l : List Char)
    (hpre : fenceMarker.isPrefixOf (cleanL l) = false)
    (hsuf : fenceMarker.isPrefixOf (cleanL l).reverse = false) :
    cleanL (cleanL l) = cleanL l := by
  have hjpre : jsonFenceMarker.isPrefixOf (cleanL l) = false := by
    by_contra hcc
    rw [Bool.not_eq_false, List.isPrefixOf_iff_prefix] at hcc
    have hf : fenceMarker <+: cleanL l :=
      (List.isPrefixOf_iff_prefix.mp (by decide)).trans hcc
    rw [← List.isPrefixOf_iff_prefix, hpre] at hf
    exact absurd hf (by simp)
  have hstrip := pyStrip_cleanL l
  have s1 : stripLeadFence jsonFenceMarker (cleanL l) = cleanL l := by
    unfold stripLeadFence
    rw [if_neg (by rw [hjpre]; simp)]
  have s2 : stripLeadFence fenceMarker (cleanL l) = cleanL l := by
    unfold stripLeadFence
    rw [if_neg (by rw [hpre]; simp)]
  have s3 : stripTrailFence (cleanL l) = cleanL l := by
    unfold stripTrailFence
    rw [if_neg (by rw [hsuf]; simp)]
  show pyStrip (stripTrailFence (pyStrip (stripLeadFence fenceMarker
    (pyStrip (stripLeadFence jsonFenceMarker (pyStrip (cleanL l))))))) = cleanL l
  rw [hstrip, s1, hstrip, s2, hstrip, s3, hstrip]

/-! ## Claims about the response normaliser -/

/-- Claim C2 (counterexample): the normaliser is not idempotent on all
inputs.  On the input built of a bare fence, a space, a `json` fence and
a payload, the first pass only peels the bare fence, leaving a string
that still begins with a `json` fence, which a second pass removes. -/
theorem clean_json_response_not_idempotent :
    clean_json_response (clean_json_response "``` ```json foo")
      ≠ clean_json_response "``` ```json foo" := by
  decide

/-- Claim C2 (amended): the normaliser is idempotent on every input whose
normalised form neither starts nor ends with a bare fence marker; in
particular applying it twice to already-clean input returns the input.
It is not idempotent on inputs whose first normalisation still exposes a
leading or trailing fence marker. -/
theorem clean_json_response_idem_spec (s : String)
    (hpre : fenceMarker.isPrefixOf (clean_json_response s).data = false)
    (hsuf : fenceMarker.isPrefixOf (clean_json_response s).data.reverse = false) :
    clean_json_response (clean_json_response s) = clean_json_response s := by
  rw [clean_json_response_data] at hpre hsuf
  unfold clean_json_response
  rw [data_mk, cleanL_idem_of_no_fence s.data hpre hsuf]

/-- Claim C3 (counterexample): stripping a ```json fence does not return
the inner content unchanged for every payload: a payload with
surrounding whitespace comes back trimmed, because the fence-removing
substitutions also consume the whitespace adjacent to the markers. -/
theorem clean_json_response_fence_not_exact :
    clean_json_response ("```json" ++ " hello " ++ "```") ≠ " hello " := by
  decide

/-- Claim C3 (amended): for every payload with no leading or trailing
whitespace that does not itself begin with a fence marker, normalising
the payload wrapped in a ```json fence strips exactly the two fence
markers and returns the payload unchanged. -/
theorem clean_json_response_fence_spec (t : String)
    (h1 : t.data.dropWhile isPySpace = t.data)
    (h2 : t.data.reverse.dropWhile isPySpace = t.data.reverse)
    (h3 : fenceMarker.isPrefixOf t.data = false) :
    clean_json_response ("```json" ++ t ++ "```") = t := by
  have hd : ("```json" ++ t ++ "```").data = jsonFenceMarker ++ t.data ++ fenceMarker := by
    simp [String.data_append, jsonFenceMarker, fenceMarker]
  unfold clean_json_response
  rw [hd, clean_json_fence_roundtrip t.data h1 h2 h3]

/-! ## Witnesses: the claim theorems evaluated at concrete inputs -/

/-- Witness for claim C4 at a one-page document and an echoing model
stub. -/
theorem extract_from_pdf_success_witness :
    extract_text_from_pdf (.ok ["hello world invoice"]) false false
        (fun _ => .error "no ocr") = .ok "hello world invoice"
    ∧ wParse (clean_json_response "```json null```") = .ok ()
    ∧ extract_from_pdf wParse (fun _ => .ok "```json null```")
        (.ok ["hello world invoice"]) false false (fun _ => .error "no ocr")
        = (.success () ("hello world invoice".take 200), true) :=
  ⟨rfl, rfl,
    extract_from_pdf_success_spec wParse (fun _ => .ok "```json null```")
      (.ok ["hello world invoice"]) false false (fun _ => .error "no ocr")
      "hello world invoice" "```json null```" () rfl rfl rfl⟩

/-- Witness for claim C5 at a one-page document and a model stub
returning malformed JSON. -/
theorem extract_from_pdf_parse_failure_witness :
    wParse (clean_json_response "oops")
        = .error "Expecting value: line 1 column 1 (char 0)"
    ∧ extract_from_pdf wParse (fun _ => .ok "oops")
        (.ok ["hello world invoice"]) false false (fun _ => .error "no ocr")
        = (.parseFailure "Failed to parse JSON from Gemini" (clean_json_response "oops")
            "Expecting value: line 1 column 1 (char 0)"
            ("hello world invoice".take 200), true) :=
  ⟨rfl,
    extract_from_pdf_parse_failure_spec wParse (fun _ => .ok "oops")
      (.ok ["hello world invoice"]) false false (fun _ => .error "no ocr")
      "hello world invoice" "oops" "Expecting value: line 1 column 1 (char 0)"
      rfl rfl rfl⟩

/-- Witness for claim C6 at corrupted document bytes. -/
theorem extract_from_pdf_pdf_failure_witness :
    extract_text_from_pdf (.error "cannot open broken document") false false
        (fun _ => .error "no ocr")
        = .error ("PDF text extraction failed: " ++ "cannot open broken document")
    ∧ extract_from_pdf wParse (fun _ => .ok "null") (.error "cannot open broken document")
        false false (fun _ => .error "no ocr")
        = (.pdfFailure "PDF processing failed"
            ("PDF text extraction failed: " ++ "cannot open broken document"), false) :=
  ⟨rfl,
    extract_from_pdf_pdf_failure_spec wParse (.error "cannot open broken document")
      false false (fun _ => .error "no ocr")
      ("PDF text extraction failed: " ++ "cannot open broken document") rfl
      (fun _ => .ok "null")⟩

/-- Witness for claim C7 at a document with two extractable characters
and at a parse failure. -/
theorem extract_text_from_pdf_error_witness :
    (pyStripS (buildText false false (fun _ => .error "no ocr") ["hi"] 0)).length < 10
    ∧ extract_text_from_pdf (.ok ["hi"]) false false (fun _ => .error "no ocr")
        = .error ("PDF text extraction failed: " ++ noTextMsg)
    ∧ extract_text_from_pdf (.error "not a pdf") true false (fun _ => .error "no ocr")
        = .error ("PDF text extraction failed: " ++ "not a pdf") :=
  ⟨by decide,
    (extract_text_from_pdf_error_spec ["hi"] false (fun _ => .error "no ocr") (by decide)).1,
    (extract_text_from_pdf_error_spec ["hi"] false (fun _ => .error "no ocr") (by decide)).2
      "not a pdf" true false (fun _ => .error "no ocr")⟩

/-- Witness for claim C10 at an id absent from the sample database. -/
theorem analyze_file_not_found_witness :
    lookupFile wDb 9 = none
    ∧ analyze_file wDumps () (.exn "boom") wDb 9 = (wDb, .error ⟨404, "File not found"⟩) :=
  ⟨by decide, analyze_file_not_found_spec wDumps () (.exn "boom") wDb 9 (by decide)⟩

/-- Witness for claim C9 at file 2 of the sample database. -/
theorem analyze_file_terminal_witness :
    lookupFile wDb 2 = some ⟨2, "b.pdf", "Q", .pending, none, none⟩
    ∧ ((∀ outcome : CallOutcome Unit, ∀ g ∈ (analyze_file wDumps () outcome wDb 2).1,
          g.id = 2 → g.status ≠ .analyzing)
      ∧ ∀ msg : String, ∀ g ∈ (analyze_file wDumps () (.exn msg) wDb 2).1,
          g.id = 2 → g.status = .failed ∧ g.error_message = some msg) :=
  ⟨by decide,
    analyze_file_terminal_spec wDumps () wDb 2 ⟨2, "b.pdf", "Q", .pending, none, none⟩
      (by decide) (by decide)⟩

/-- Witness for the amended claim C1 at a fresh file of the sample
database. -/
theorem analyze_file_fresh_exclusive_witness :
    (∀ g ∈ wDb, g.id = 1 → g.extracted_data = none ∧ g.error_message = none)
    ∧ ∀ g ∈ (analyze_file wDumps () (.ret (.success () "pv")) wDb 1).1, g.id = 1 →
        ¬(g.extracted_data.isSome = true ∧ g.error_message.isSome = true) :=
  ⟨by decide,
    analyze_file_fresh_exclusive wDumps () (.ret (.success () "pv")) wDb 1 (by decide)⟩

/-- Witness for the amended claim C2 at a fenced JSON object reply. -/
theorem clean_json_response_idem_witness :
    (fenceMarker.isPrefixOf (clean_json_response "```json\n\x7b\"a\": 1\x7d\n```").data = false
      ∧ fenceMarker.isPrefixOf
          (clean_json_response "```json\n\x7b\"a\": 1\x7d\n```").data.reverse = false)
    ∧ clean_json_response (clean_json_response "```json\n\x7b\"a\": 1\x7d\n```")
        = clean_json_response "```json\n\x7b\"a\": 1\x7d\n```" :=
  ⟨⟨by decide, by decide⟩,
    clean_json_response_idem_spec "```json\n\x7b\"a\": 1\x7d\n```" (by decide) (by decide)⟩

/-- Witness for the amended claim C3 at a JSON object payload. -/
theorem clean_json_response_fence_witness :
    ("\x7b\"a\": 1\x7d".data.dropWhile isPySpace = "\x7b\"a\": 1\x7d".data
      ∧ fenceMarker.isPrefixOf "\x7b\"a\": 1\x7d".data = false)
    ∧ clean_json_response ("```json" ++ "\x7b\"a\": 1\x7d" ++ "```") = "\x7b\"a\": 1\x7d" :=
  ⟨⟨by decide, by decide⟩,
    clean_json_response_fence_spec "\x7b\"a\": 1\x7d" (by decide) (by decide) (by decide)⟩

/-- Witness for claim C8 on the three-file sample queue whose second
file's pipeline call throws. -/
theorem analyze_all_pending_witness :
    ((wDb.map FileRec.id).Nodup ∧ 1 < (pendingOf wDb).length ∧ wOcs 1 = .exn "boom")
    ∧ ((analyze_all_pending wDumps () wOcs wDb).2.results.length = (pendingOf wDb).length
      ∧ (analyze_all_pending wDumps () wOcs wDb).2.total_processed = (pendingOf wDb).length
      ∧ (∀ j, j < (pendingOf wDb).length →
          ((analyze_all_pending wDumps () wOcs wDb).2.results.getD j noItem).id
              = ((pendingOf wDb).getD j noRec).id
          ∧ ((analyze_all_pending wDumps () wOcs wDb).2.results.getD j noItem).status
              = outcomeStatusStr (wOcs j))
      ∧ ((analyze_all_pending wDumps () wOcs wDb).2.results.getD 1 noItem).status = "failed"
      ∧ (∀ g ∈ (analyze_all_pending wDumps () wOcs wDb).1,
          g.id = ((pendingOf wDb).getD 1 noRec).id →
            g.status = .failed ∧ g.error_message = some "boom")
      ∧ (analyze_all_pending wDumps () wOcs wDb).2.analyzed_count
          = ((analyze_all_pending wDumps () wOcs wDb).2.results.filter
              (fun it => it.status == "completed")).length) :=
  ⟨⟨by decide, by decide, by decide⟩,
    analyze_all_pending_spec wDumps () wOcs wDb 1 "boom" (by decide) (by decide) (by decide)⟩

end DocScan
